import Mathlib

/-!
Verification of the event notification core of hubitat-utils
(src/frigate/frigate_manager.py, src/frigate/frigate_mqtt_client.py,
src/frigate/doorbell_monitor.py), as a shallow embedding. Machine
floats used for times and scores are modelled as rationals; Python
dicts as association lists; exceptions as `Option`/`Except` values.
-/

namespace HubitatSpec

/-! ## Regular expressions

`NotificationRule.__post_init__` compiles `camera` and `object_type` with
`re.compile('^' + pat + '$', re.IGNORECASE)`; matching uses `Pattern.match`,
which together with the anchors is a whole-string match. The compiled
pattern is embedded as a regular-expression syntax tree and a Brzozowski
derivative matcher. -/

/-- Abstract syntax of a compiled pattern. -/
inductive Regex where
  | emptyset : Regex
  | epsilon : Regex
  | lit : Char → Regex
  | dot : Regex
  | alt : Regex → Regex → Regex
  | cat : Regex → Regex → Regex
  | star : Regex → Regex
deriving DecidableEq

/-- Whether a pattern accepts the empty string. -/
def Regex.nullable : Regex → Bool
  | .emptyset => false
  | .epsilon => true
  | .lit _ => false
  | .dot => false
  | .alt r s => r.nullable || s.nullable
  | .cat r s => r.nullable && s.nullable
  | .star _ => true

/-- Derivative of a pattern by one input character, honouring
`re.IGNORECASE` (characters compared through `Char.toLower`) and the fact
that `.` does not match a newline. -/
def Regex.delta : Regex → Char → Regex
  | .emptyset, _ => .emptyset
  | .epsilon, _ => .emptyset
  | .lit c, a => if c.toLower = a.toLower then .epsilon else .emptyset
  | .dot, a => if a = Char.ofNat 10 then .emptyset else .epsilon
  | .alt r s, a => .alt (r.delta a) (s.delta a)
  | .cat r s, a =>
    if r.nullable then .alt (.cat (r.delta a) s) (s.delta a)
    else .cat (r.delta a) s
  | .star r, a => .cat (r.delta a) (.star r)

/-- Whole-string case-insensitive match: the semantics of
`rule.camera_pattern.match(s)` for a pattern compiled as `^pat$` with
`re.IGNORECASE`. -/
def fullmatchCI (r : Regex) (s : String) : Bool :=
  (s.data.foldl Regex.delta r).nullable

/-- The pattern a plain-text configuration string such as "person"
compiles to. -/
def rlit (s : String) : Regex :=
  s.data.foldr (fun c r => Regex.cat (Regex.lit c) r) Regex.epsilon

/-- The pattern the configuration string ".*" compiles to. -/
def rAnyStar : Regex := Regex.star Regex.dot

/-! ## Quiet hours (`NotificationRule.is_quiet_hours`) -/

/-- Split a character list at every occurrence of the separator (the
second argument accumulates the current field, reversed). -/
def splitChars (sep : Char) : List Char → List Char → List (List Char)
  | [], acc => [acc.reverse]
  | c :: rest, acc =>
    if c = sep then acc.reverse :: splitChars sep rest []
    else splitChars sep rest (c :: acc)

/-- Decimal value of a digit list. -/
def digitsToNat (cs : List Char) : Nat :=
  cs.foldl (fun a c => a * 10 + (c.toNat - 48)) 0

/-- `datetime.strptime(s, "%H:%M").time()` as seconds after midnight:
one or two digits for the hour (0-23), one or two for the minute (0-59);
anything else raises `ValueError`, modelled as `none`. -/
def parseHM (s : String) : Option Nat :=
  match splitChars ':' s.data [] with
  | [hs, ms] =>
    if hs ≠ [] ∧ hs.length ≤ 2 ∧ ms ≠ [] ∧ ms.length ≤ 2 ∧
        hs.all Char.isDigit ∧ ms.all Char.isDigit then
      if digitsToNat hs < 24 ∧ digitsToNat ms < 60 then
        some (digitsToNat hs * 3600 + digitsToNat ms * 60)
      else none
    else none
  | _ => none

/-- `NotificationRule.is_quiet_hours`. `now` is the current time of day
in seconds after midnight (`datetime.now().time()`), rational to keep
sub-second precision. The guard `if not start or not end: return False`
treats `None` and the empty string alike; an unparsable configured time
makes `strptime` raise `ValueError`, modelled as `none`. -/
def is_quiet_hours (qs qe : Option String) (now : ℚ) : Option Bool :=
  match qs, qe with
  | some s, some e =>
    if s = "" ∨ e = "" then some false
    else
      match parseHM s, parseHM e with
      | some start, some stop =>
        if start ≤ stop then
          some (decide ((start : ℚ) ≤ now ∧ now ≤ (stop : ℚ)))
        else
          some (decide (now ≥ (start : ℚ) ∨ now ≤ (stop : ℚ)))
      | _, _ => none
  | _, _ => some false

/-! ## Hysteresis tracker (`HysteresisTracker`) -/

/-- The `_last_notification` dict, keyed by "camera:object_type". -/
abbrev HMap := List (String × ℚ)

/-- `HysteresisTracker.get_key`. -/
def get_key (camera object_type : String) : String :=
  camera ++ ":" ++ object_type

/-- `self._last_notification.get(key, 0)`. -/
def hmGet (m : HMap) (key : String) : ℚ :=
  match m.find? (fun p => p.1 == key) with
  | some p => p.2
  | none => 0

/-- `HysteresisTracker.can_notify`: true when
`current_time - last_time >= hysteresis_seconds`, a missing entry read
as `0` by `dict.get(key, 0)`. -/
def can_notify (m : HMap) (camera object_type : String)
    (hysteresis_seconds now : ℚ) : Bool :=
  decide (now - hmGet m (get_key camera object_type) ≥ hysteresis_seconds)

/-- `HysteresisTracker.record_notification`: store `now` under the key. -/
def record_notification (m : HMap) (camera object_type : String)
    (now : ℚ) : HMap :=
  (get_key camera object_type, now) ::
    m.filter (fun p => !(p.1 == get_key camera object_type))

/-! ## Rules and events (manager-side, typed view) -/

/-- `FrigateEventType` (frigate_mqtt_client.py). -/
inductive FrigateEventType where
  | new : FrigateEventType
  | update : FrigateEventType
  | end_ : FrigateEventType
deriving DecidableEq

/-- `NotificationRule` (frigate_manager.py), restricted to the fields the
matching and dispatch logic reads. `camera_pattern` and
`object_type_pattern` hold the patterns `__post_init__` compiles as
`^pat$` with `re.IGNORECASE`; they are always set, so the
`is not None` guards in `_rule_matches` are vacuous. The enrichment
fields (`include_thumbnail`, `include_snapshot`, `include_urls`,
`subject_template`) only shape the message and are abstracted by the
dispatch model's `formatOk`/`smtpOk` parameters. -/
structure NotificationRule where
  camera_pattern : Regex
  object_type_pattern : Regex
  email_to : List String
  hysteresis_seconds : ℚ
  min_score : ℚ
  enabled : Bool
  zones : Option (List String)
  notify_on_new : Bool
  notify_on_end : Bool
  quiet_hours_start : Option String
  quiet_hours_end : Option String
deriving DecidableEq

/-- The fields of `FrigateEventData` the manager reads. -/
structure EventData where
  id : String
  camera : String
  label : String
  top_score : ℚ
  current_zones : List String
deriving DecidableEq

/-- A `FrigateEvent` as the manager consumes it. -/
structure FEvent where
  event_type : FrigateEventType
  after : EventData
deriving DecidableEq

/-- `NotificationManager._rule_matches`, with its early returns. -/
def rule_matches (rule : NotificationRule) (camera label : String)
    (zones : List String) : Bool :=
  if rule.enabled = false then false
  else if fullmatchCI rule.camera_pattern camera = false then false
  else if fullmatchCI rule.object_type_pattern label = false then false
  else
    match rule.zones with
    | none => true
    | some zs =>
      if zs.isEmpty then true
      else zones.any (fun z => zs.contains z)

/-- `NotificationManager.get_matching_rules`: append every rule that
matches, in declaration order. -/
def get_matching_rules (rules : List NotificationRule) (event : FEvent) :
    List NotificationRule :=
  rules.filter (fun r =>
    rule_matches r event.after.camera event.after.label
      event.after.current_zones)

/-! ## Email sending and per-rule dispatch -/

/-- `EmailSender.send_html_email`, abstracted over the SMTP transaction:
`smtpOk` is whether the message build and `_send_message` complete without
raising (every exception inside is caught and turned into `False`).
Returns (return value, whether an SMTP send was attempted). An empty
recipient list returns `False` before anything is built or connected. -/
def send_html_email (to_addresses : List String) (smtpOk : Bool) :
    Bool × Bool :=
  if to_addresses.isEmpty then (false, false)
  else (smtpOk, true)

/-- `NotificationManager._send_notification`: `formatOk` is whether the
subject/body construction completes without raising (e.g. a bad
`subject_template` raises `KeyError`); `none` models such a propagated
exception. The image fetches catch their own errors and only omit the
image, so they cannot raise here. -/
def send_notification (rule : NotificationRule) (smtpOk formatOk : Bool) :
    Option Bool :=
  if formatOk then some (send_html_email rule.email_to smtpOk).1 else none

/-- Result of `NotificationManager._process_rule`: either an exception
propagated to the caller (with the hysteresis map as it stood), or a
normal return recording whether a send was attempted, whether it
reported success, and the resulting hysteresis map. -/
inductive RuleResult where
  | raised : HMap → RuleResult
  | done : Bool → Bool → HMap → RuleResult
deriving DecidableEq

/-- The hysteresis map after `_process_rule`. -/
def RuleResult.hystOf : RuleResult → HMap
  | .raised h => h
  | .done _ _ h => h

/-- Whether `_process_rule` observed a successful send. -/
def RuleResult.sentOk : RuleResult → Bool
  | .raised _ => false
  | .done _ s _ => s

/-- Whether `_process_rule` reached the sending step. -/
def RuleResult.attempted : RuleResult → Bool
  | .raised _ => false
  | .done a _ _ => a

/-- `NotificationManager._process_rule`. `is_new`/`is_end` are computed by
`process_event` from the event type; `now` is `time.time()`, `tod` the
time of day `is_quiet_hours` reads. Gate order follows the source: event
phase, then `min_score`, then quiet hours, then hysteresis; only then is
the notification sent, and `record_notification` runs only when the send
returned `True`. -/
def process_rule (event : FEvent) (rule : NotificationRule)
    (is_new is_end : Bool) (hyst : HMap) (now tod : ℚ)
    (smtpOk formatOk : Bool) : RuleResult :=
  if is_new = true ∧ rule.notify_on_new = false then .done false false hyst
  else if is_end = true ∧ rule.notify_on_end = false then .done false false hyst
  else if is_new = false ∧ is_end = false then .done false false hyst
  else if event.after.top_score < rule.min_score then .done false false hyst
  else
    match is_quiet_hours rule.quiet_hours_start rule.quiet_hours_end tod with
    | none => .raised hyst
    | some true => .done false false hyst
    | some false =>
      if can_notify hyst event.after.camera event.after.label
          rule.hysteresis_seconds now = false then
        .done false false hyst
      else
        match send_notification rule smtpOk formatOk with
        | none => .raised hyst
        | some success =>
          .done true success
            (if success then
              record_notification hyst event.after.camera event.after.label now
            else hyst)

/-- Result of `NotificationManager.process_event`: an exception aborts the
loop over the matching rules (there is no try/except around
`_process_rule`); otherwise the run finishes, remembering whether any rule
reached the sending step. -/
inductive RunResult where
  | raised : HMap → RunResult
  | finished : Bool → HMap → RunResult
deriving DecidableEq

/-- The loop body of `process_event` over the matching rules, threading
the hysteresis map; `send i` supplies the (smtpOk, formatOk) outcome of
the i-th processed rule's delivery attempt. -/
def run_rules (event : FEvent) (is_new is_end : Bool) (now tod : ℚ)
    (send : Nat → Bool × Bool) :
    List NotificationRule → HMap → Bool → Nat → RunResult
  | [], hyst, att, _ => .finished att hyst
  | r :: rs, hyst, att, i =>
    match process_rule event r is_new is_end hyst now tod
        (send i).1 (send i).2 with
    | .raised h => .raised h
    | .done a _ h => run_rules event is_new is_end now tod send rs h (att || a) (i + 1)

/-- `NotificationManager.process_event`: compute `is_new`/`is_end` from
the event type, collect the matching rules, process each in order. -/
def process_event (event : FEvent) (rules : List NotificationRule)
    (hyst : HMap) (now tod : ℚ) (send : Nat → Bool × Bool) : RunResult :=
  run_rules event
    (decide (event.event_type = FrigateEventType.new))
    (decide (event.event_type = FrigateEventType.end_))
    now tod send (get_matching_rules rules event) hyst false 0

/-! ## Camera connectivity reconciliation (`CameraConnectivityHandler`) -/

/-- Python `str.lower()` (simple character-wise case mapping). -/
def strLower (s : String) : String :=
  String.mk (s.data.map Char.toLower)

/-- The command one exception entry produces: `'enabled'` → enable,
`'disabled'` → disable, anything else is logged and skipped. -/
def exception_cmd (p : String × String) : Option (String × Bool) :=
  if strLower p.2 = "enabled" then some (p.1, true)
  else if strLower p.2 = "disabled" then some (p.1, false)
  else none

/-- `CameraConnectivityHandler._check_connectivity`, with the MQTT client
present. `cameras` is the discovered name→ip map, `exceptions` the
configured name→state map, `probe ip` the result of the
`nc -z ip 554` check (timeouts and a missing `nc` both yield `false`).
Returns the enable/disable commands emitted, in order, paired with the
list of camera names that were probed. An empty discovery returns early,
before even the exceptions are applied. -/
def check_connectivity_full (cameras : List (String × String))
    (exceptions : List (String × String)) (probe : String → Bool) :
    List (String × Bool) × List String :=
  if cameras.isEmpty then ([], [])
  else
    let exc_cmds := exceptions.filterMap exception_cmd
    let to_check := cameras.filter
      (fun c => (exceptions.find? (fun e => e.1 == c.1)).isNone)
    (exc_cmds ++ to_check.map (fun c => (c.1, probe c.2)),
      to_check.map (fun c => c.1))

/-- The emitted enable/disable commands of one reconciliation pass. -/
def check_connectivity (cameras : List (String × String))
    (exceptions : List (String × String)) (probe : String → Bool) :
    List (String × Bool) :=
  (check_connectivity_full cameras exceptions probe).1

/-! ## Doorbell edge detection (`ReolinkDriver`, doorbell_monitor.py) -/

/-- The mutable state of a `ReolinkDriver`: `__init__` sets
`_last_alarm_state = 0` and (in the base class) `last_event_time = 0`;
`debounce_time` comes from the configuration (default 5 seconds). -/
structure ReolinkDriver where
  last_alarm_state : Nat
  last_event_time : ℚ
  debounce_time : ℚ
deriving DecidableEq

/-- A freshly constructed driver. -/
def ReolinkDriver.init (debounce_time : ℚ) : ReolinkDriver :=
  { last_alarm_state := 0, last_event_time := 0, debounce_time }

/-- The edge/debounce core of `ReolinkDriver.check_doorbell_press`, given
the polled `visitor.alarm_state` and the current time: fire on a 0→1
transition when the debounce window has passed, and in every case store
the observed state for the next iteration. -/
def check_doorbell_press (st : ReolinkDriver) (alarm_state : Nat)
    (now : ℚ) : Bool × ReolinkDriver :=
  if alarm_state = 1 ∧ st.last_alarm_state = 0 then
    if now - st.last_event_time > st.debounce_time then
      (true, { st with last_event_time := now, last_alarm_state := alarm_state })
    else
      (false, { st with last_alarm_state := alarm_state })
  else
    (false, { st with last_alarm_state := alarm_state })

/-! ## Event payload parsing (frigate_mqtt_client.py) -/

/-- Parsed JSON values, the output of `json.loads`. -/
inductive Json where
  | null : Json
  | bool : Bool → Json
  | num : ℚ → Json
  | str : String → Json
  | arr : List Json → Json
  | obj : List (String × Json) → Json

/-- Dict lookup (`'k' in d` / `d['k']`). -/
def jget : List (String × Json) → String → Option Json
  | [], _ => none
  | (k, v) :: rest, key => if k = key then some v else jget rest key

/-- `dict.get(key, default)`. -/
def jgetD (fields : List (String × Json)) (key : String) (d : Json) : Json :=
  (jget fields key).getD d

/-- Python truthiness of a parsed JSON value, used by
`if 'before' in data and data['before']:`. -/
def Json.truthy : Json → Bool
  | .null => false
  | .bool b => b
  | .num q => decide (q ≠ 0)
  | .str s => !(s == "")
  | .arr l => !l.isEmpty
  | .obj l => !l.isEmpty

/-- The exceptions the parsing code can raise. -/
inductive PyErr where
  | keyError : PyErr
  | attributeError : PyErr
deriving DecidableEq

/-- `FrigateEventData` exactly as `from_dict` builds it: every field holds
the raw JSON value found in the payload (dataclasses do not check types at
runtime), with the source's per-field defaults. -/
structure FrigateEventData where
  id : Json
  camera : Json
  label : Json
  score : Json
  box : Json
  area : Json
  start_time : Json
  end_time : Json
  top_score : Json
  false_positive : Json
  current_zones : Json
  entered_zones : Json
  has_snapshot : Json
  has_clip : Json
  active : Json
  stationary : Json
  sub_label : Json
  attributes : Json
  recognized_license_plate : Json
  recognized_license_plate_score : Json
  current_estimated_speed : Json
  average_estimated_speed : Json
  velocity_angle : Json

/-- `FrigateEventData.from_dict`: `.get` with a default for every field,
so an absent optional key never raises; only calling `.get` on a value
that is not a dict raises (`AttributeError`). -/
def FrigateEventData.from_dict : Json → Except PyErr FrigateEventData
  | .obj fields => .ok
    { id := jgetD fields "id" (.str "")
      camera := jgetD fields "camera" (.str "")
      label := jgetD fields "label" (.str "")
      score := jgetD fields "score" (.num 0)
      box := jgetD fields "box" (.arr [])
      area := jgetD fields "area" (.num 0)
      start_time := jgetD fields "start_time" (.num 0)
      end_time := jgetD fields "end_time" .null
      top_score := jgetD fields "top_score" (.num 0)
      false_positive := jgetD fields "false_positive" (.bool false)
      current_zones := jgetD fields "current_zones" (.arr [])
      entered_zones := jgetD fields "entered_zones" (.arr [])
      has_snapshot := jgetD fields "has_snapshot" (.bool false)
      has_clip := jgetD fields "has_clip" (.bool false)
      active := jgetD fields "active" (.bool true)
      stationary := jgetD fields "stationary" (.bool false)
      sub_label := jgetD fields "sub_label" .null
      attributes := jgetD fields "attributes" (.obj [])
      recognized_license_plate := jgetD fields "recognized_license_plate" .null
      recognized_license_plate_score :=
        jgetD fields "recognized_license_plate_score" .null
      current_estimated_speed := jgetD fields "current_estimated_speed" .null
      average_estimated_speed := jgetD fields "average_estimated_speed" .null
      velocity_angle := jgetD fields "velocity_angle" .null }
  | _ => .error .attributeError

/-- `FrigateEventType(event_type_str)` with the `except ValueError`
fallback: an unrecognized string becomes UPDATE. -/
def parse_event_type (s : String) : FrigateEventType :=
  if s = "new" then .new
  else if s = "update" then .update
  else if s = "end" then .end_
  else .update

/-- A parsed `FrigateEvent` as `from_dict` builds it. -/
structure ParsedEvent where
  event_type : FrigateEventType
  before : Option FrigateEventData
  after : FrigateEventData

/-- The `before` block of `FrigateEvent.from_dict`: parsed only when the
key is present and its value truthy. -/
def parse_before (fields : List (String × Json)) :
    Except PyErr (Option FrigateEventData) :=
  match jget fields "before" with
  | some bv =>
    if bv.truthy then (FrigateEventData.from_dict bv).map some
    else .ok none
  | none => .ok none

/-- `FrigateEvent.from_dict`: the optional `before` is parsed only when
present and truthy; `after` is accessed as `data['after']`, raising
`KeyError` when absent; the event type string defaults to "update", is
lowercased (raising `AttributeError` if it is not a string) and falls
back to UPDATE when unrecognized. -/
def parsedEventFromDict : Json → Except PyErr ParsedEvent
  | .obj fields =>
    match parse_before fields with
    | .error e => .error e
    | .ok before =>
      match jget fields "after" with
      | none => .error .keyError
      | some av =>
        match FrigateEventData.from_dict av with
        | .error e => .error e
        | .ok after =>
          match jgetD fields "type" (.str "update") with
          | .str s => .ok
            { event_type := parse_event_type (strLower s), before, after }
          | _ => .error .attributeError
  | _ => .error .attributeError

/-- `FrigateMQTTClient._handle_event_message`: `none` in models a payload
`json.loads` rejects (`JSONDecodeError`, caught and logged); any
exception out of `FrigateEvent.from_dict` is caught by the broad
`except Exception` and logged; in both cases the event is dropped
(`none` out) instead of crashing the consumer loop. -/
def handle_event_message (decoded : Option Json) : Option ParsedEvent :=
  match decoded with
  | none => none
  | some j =>
    match parsedEventFromDict j with
    | .error _ => none
    | .ok e => some e

/-! ## Theorems -/

/-- C3 counterexample: with an empty hysteresis map there is no entry for
the key "cam:person", yet `can_notify` at current time 5 with
`min_interval = 10` returns `false` — `dict.get(key, 0)` makes a missing
entry behave like a notification recorded at time 0, so the claim's
"no entry ⇒ allowed" direction fails. -/
theorem C3_counterexample_missing_entry :
    ([] : HMap).find? (fun p => p.1 == get_key "cam" "person") = none ∧
    can_notify ([] : HMap) "cam" "person" 10 5 = false := by
  refine ⟨rfl, ?_⟩
  unfold can_notify hmGet
  simp only [List.find?_nil, decide_eq_false_iff_not]
  norm_num

/-- C3 (amended): `can_notify` returns true iff
`now - last >= min_interval` where `last` is the stored time for the
(camera, object_type) key, or `0` when no entry exists; the boundary is
inclusive. In particular a missing entry passes only when
`now >= min_interval` (always so for epoch-based wall-clock time). -/
theorem C3_can_notify_characterization (m : HMap)
    (camera object_type : String) (min_interval now : ℚ) :
    can_notify m camera object_type min_interval now = true ↔
      ((m.find? (fun p => p.1 == get_key camera object_type) = none ∧
          now ≥ min_interval) ∨
        (∃ p, m.find? (fun p' => p'.1 == get_key camera object_type) = some p ∧
          now - p.2 ≥ min_interval)) := by
  unfold can_notify hmGet
  cases hfind : m.find? (fun p => p.1 == get_key camera object_type) with
  | none => simp [hfind]
  | some p => simp [hfind]

/-- C4 counterexample: a freshly created `ReolinkDriver` (configuration
default `debounce_time = 5`) whose very first observed
`visitor.alarm_state` is already 1 reports a press on that first
observation (at wall-clock time 1000), because `__init__` sets
`_last_alarm_state = 0` rather than an "unknown" tri-state. -/
theorem C4_counterexample_first_observation :
    (check_doorbell_press (ReolinkDriver.init 5) 1 1000).1 = true := by
  unfold check_doorbell_press ReolinkDriver.init
  norm_num

/-- When `check_doorbell_press` reports a press: exactly on an observed
0→1 transition with the debounce window elapsed. -/
theorem check_doorbell_press_fires_iff (st : ReolinkDriver)
    (alarm_state : Nat) (now : ℚ) :
    (check_doorbell_press st alarm_state now).1 = true ↔
      (alarm_state = 1 ∧ st.last_alarm_state = 0 ∧
        now - st.last_event_time > st.debounce_time) := by
  unfold check_doorbell_press
  by_cases h1 : alarm_state = 1 ∧ st.last_alarm_state = 0
  · rw [if_pos h1]
    by_cases h2 : now - st.last_event_time > st.debounce_time
    · rw [if_pos h2]
      simp [h1.1, h1.2, h2]
    · rw [if_neg h2]
      simp [h2]
  · rw [if_neg h1]
    exact iff_of_false (by simp) (fun h => h1 ⟨h.1, h.2.1⟩)

/-- C4 (amended): the detector's initial previous state is 0, not
unknown, so a press is reported exactly on an observed 0→1 transition
with the debounce window elapsed — including the first observation of a
fresh detector when its raw state is already 1 (the debounce is measured
from `last_event_time = 0`). -/
theorem C4_edge_characterization (st : ReolinkDriver) (alarm_state : Nat)
    (now d : ℚ) :
    ((check_doorbell_press st alarm_state now).1 = true ↔
      (alarm_state = 1 ∧ st.last_alarm_state = 0 ∧
        now - st.last_event_time > st.debounce_time)) ∧
    ((check_doorbell_press (ReolinkDriver.init d) alarm_state now).1 = true ↔
      (alarm_state = 1 ∧ now > d)) := by
  refine ⟨check_doorbell_press_fires_iff st alarm_state now, ?_⟩
  rw [check_doorbell_press_fires_iff]
  simp [ReolinkDriver.init]

/-- C1: `_process_rule` records hysteresis state (writing the current
time under the (camera, label) key) if and only if `_send_notification`
reported success; when the send returns `False` or raises (the `raised`
outcome, which also covers a quiet-hours parse error before the send),
the hysteresis map is returned exactly unchanged, so a later identical
event within the interval still attempts delivery. -/
theorem C1_record_iff_success (event : FEvent) (rule : NotificationRule)
    (is_new is_end : Bool) (hyst : HMap) (now tod : ℚ)
    (smtpOk formatOk : Bool) :
    (process_rule event rule is_new is_end hyst now tod smtpOk formatOk).hystOf =
      (if (process_rule event rule is_new is_end hyst now tod smtpOk formatOk).sentOk then
        record_notification hyst event.after.camera event.after.label now
      else hyst) := by
  unfold process_rule
  (repeat' split) <;> simp_all [RuleResult.hystOf, RuleResult.sentOk]

/-- C10: with an empty recipient list `send_html_email` returns `False`
without attempting any SMTP connection (second component), so a matched
rule whose `email_to` is empty can never report a successful send and
`_process_rule` never records a hysteresis entry for it — such a rule
cannot suppress later notifications for its (camera, label) key. -/
theorem C10_empty_recipients (event : FEvent) (rule : NotificationRule)
    (is_new is_end : Bool) (hyst : HMap) (now tod : ℚ)
    (smtpOk formatOk : Bool) (hempty : rule.email_to = []) :
    send_html_email rule.email_to smtpOk = (false, false) ∧
    (process_rule event rule is_new is_end hyst now tod smtpOk formatOk).hystOf =
      hyst := by
  constructor
  · rw [hempty]; rfl
  · unfold process_rule
    (repeat' split) <;>
      simp_all [RuleResult.hystOf, send_notification, send_html_email, hempty]

/-- C10 witness: the theorem applied to a concrete rule with no
recipients and a concrete event. -/
theorem C10_empty_recipients_witness :
    send_html_email (NotificationRule.email_to
        ⟨rAnyStar, rAnyStar, [], 60, 1/2, true, none, true, false, none, none⟩)
      true = (false, false) ∧
    (process_rule ⟨.new, ⟨"ev1", "front_door", "person", 1, []⟩⟩
        ⟨rAnyStar, rAnyStar, [], 60, 1/2, true, none, true, false, none, none⟩
        true false [] 1000 0 true true).hystOf = [] := by
  exact C10_empty_recipients ⟨.new, ⟨"ev1", "front_door", "person", 1, []⟩⟩
    ⟨rAnyStar, rAnyStar, [], 60, 1/2, true, none, true, false, none, none⟩
    true false [] 1000 0 true true rfl

/-- `is_quiet_hours` on two configured times that parse. -/
theorem is_quiet_hours_parsed (s e : String) (start stop : Nat) (now : ℚ)
    (hs : parseHM s = some start) (he : parseHM e = some stop) :
    is_quiet_hours (some s) (some e) now =
      some (if start ≤ stop then
        decide ((start : ℚ) ≤ now ∧ now ≤ (stop : ℚ))
      else decide (now ≥ (start : ℚ) ∨ now ≤ (stop : ℚ))) := by
  have hne : ¬(s = "" ∨ e = "") := by
    rintro (rfl | rfl)
    · rw [show parseHM "" = none from rfl] at hs; cases hs
    · rw [show parseHM "" = none from rfl] at he; cases he
  by_cases hle : start ≤ stop
  · simp [is_quiet_hours, hne, hs, he, hle]
  · simp [is_quiet_hours, hne, hs, he, hle]

/-- C7: confirmed. Quiet hours: absent start or end (Python-falsy, so
`None` or the empty string) means never quiet; with `start <= end`
quiet iff `start <= now <= end`; with `start > end` the window wraps
midnight and quiet iff `now >= start` or `now <= end`, boundaries
inclusive. The spec's three examples are checked: 23:30 in 22:00–07:00
is quiet, 12:00 is not, 06:59 is quiet. -/
theorem C7_quiet_hours_spec :
    (∀ (qe : Option String) (now : ℚ), is_quiet_hours none qe now = some false) ∧
    (∀ (qs : Option String) (now : ℚ), is_quiet_hours qs none now = some false) ∧
    (∀ (s e : String) (start stop : Nat) (now : ℚ),
      parseHM s = some start → parseHM e = some stop →
      is_quiet_hours (some s) (some e) now =
        some (if start ≤ stop then
          decide ((start : ℚ) ≤ now ∧ now ≤ (stop : ℚ))
        else decide (now ≥ (start : ℚ) ∨ now ≤ (stop : ℚ)))) ∧
    is_quiet_hours (some "22:00") (some "07:00") (23 * 3600 + 30 * 60) =
      some true ∧
    is_quiet_hours (some "22:00") (some "07:00") (12 * 3600) = some false ∧
    is_quiet_hours (some "22:00") (some "07:00") (6 * 3600 + 59 * 60) =
      some true := by
  refine ⟨?_, ?_, fun s e start stop now hs he =>
      is_quiet_hours_parsed s e start stop now hs he, ?_, ?_, ?_⟩
  · intro qe now; cases qe <;> rfl
  · intro qs now; cases qs <;> rfl
  · rw [is_quiet_hours_parsed "22:00" "07:00" 79200 25200 _ rfl rfl]
    norm_num
  · rw [is_quiet_hours_parsed "22:00" "07:00" 79200 25200 _ rfl rfl]
    norm_num
  · rw [is_quiet_hours_parsed "22:00" "07:00" 79200 25200 _ rfl rfl]
    norm_num

/-- A rule processed with `is_new = false` and `is_end = false` (an
UPDATE event) is skipped before every gate and side effect. -/
theorem process_rule_update_skip (event : FEvent) (rule : NotificationRule)
    (hyst : HMap) (now tod : ℚ) (smtpOk formatOk : Bool) :
    process_rule event rule false false hyst now tod smtpOk formatOk =
      RuleResult.done false false hyst := by
  unfold process_rule
  simp

/-- The rule loop under `is_new = false`, `is_end = false` finishes with
nothing attempted and the hysteresis map unchanged. -/
theorem run_rules_update (event : FEvent) (now tod : ℚ)
    (send : Nat → Bool × Bool) (rules : List NotificationRule)
    (hyst : HMap) (att : Bool) (i : Nat) :
    run_rules event false false now tod send rules hyst att i =
      RunResult.finished att hyst := by
  induction rules generalizing hyst att i with
  | nil => rfl
  | cons r rs ih =>
    unfold run_rules
    rw [process_rule_update_skip]
    simpa using ih hyst att (i + 1)

/-- C8: confirmed. An UPDATE event (neither NEW nor END) never reaches
the sending step and never modifies hysteresis state — `process_event`
finishes with no attempted send and the map unchanged, whatever the
rules; a NEW event is skipped by `_process_rule` unless
`notify_on_new`, an END event unless `notify_on_end`. -/
theorem C8_phase_filter :
    (∀ (event : FEvent) (rules : List NotificationRule) (hyst : HMap)
        (now tod : ℚ) (send : Nat → Bool × Bool),
      event.event_type = FrigateEventType.update →
      process_event event rules hyst now tod send =
        RunResult.finished false hyst) ∧
    (∀ (event : FEvent) (rule : NotificationRule) (hyst : HMap)
        (now tod : ℚ) (smtpOk formatOk : Bool),
      rule.notify_on_new = false →
      process_rule event rule true false hyst now tod smtpOk formatOk =
        RuleResult.done false false hyst) ∧
    (∀ (event : FEvent) (rule : NotificationRule) (hyst : HMap)
        (now tod : ℚ) (smtpOk formatOk : Bool),
      rule.notify_on_end = false →
      process_rule event rule false true hyst now tod smtpOk formatOk =
        RuleResult.done false false hyst) := by
  refine ⟨?_, ?_, ?_⟩
  · intro event rules hyst now tod send hupd
    unfold process_event
    rw [hupd]
    exact run_rules_update event now tod send _ hyst false 0
  · intro event rule hyst now tod smtpOk formatOk hn
    unfold process_rule
    simp [hn]
  · intro event rule hyst now tod smtpOk formatOk hn
    unfold process_rule
    simp [hn]

/-- `_rule_matches` as the conjunction of the spec's predicates. -/
theorem rule_matches_iff (rule : NotificationRule) (camera label : String)
    (zones : List String) :
    rule_matches rule camera label zones = true ↔
      (rule.enabled = true ∧
        fullmatchCI rule.camera_pattern camera = true ∧
        fullmatchCI rule.object_type_pattern label = true ∧
        (∀ zs, rule.zones = some zs → zs ≠ [] →
          ∃ z, z ∈ zones ∧ z ∈ zs)) := by
  unfold rule_matches
  cases hen : rule.enabled with
  | false => simp [hen]
  | true =>
    cases hc : fullmatchCI rule.camera_pattern camera with
    | false => simp [hc]
    | true =>
      cases ho : fullmatchCI rule.object_type_pattern label with
      | false => simp [ho]
      | true =>
        cases hz : rule.zones with
        | none => simp [hz]
        | some zs =>
          by_cases hzs : zs.isEmpty
          · simp [hz, hzs, List.isEmpty_iff.mp hzs]
          · have hzs' : zs ≠ [] := by
              simpa [List.isEmpty_iff] using hzs
            simp [hz, hzs, hzs', List.any_eq_true, List.elem_iff]

/-- C2: confirmed. `get_matching_rules` returns a rule iff it is in the
rule list, enabled, its camera pattern fully matches the event's camera
case-insensitively (anchored, whole-string), its object-type pattern
fully matches the label, and — when its zone list is non-empty — the
event's current zones intersect it; the result is a sublist of the rule
list, so declaration order is preserved and every matching rule is
returned, not just the first. -/
theorem C2_get_matching_rules_spec (rules : List NotificationRule)
    (event : FEvent) (r : NotificationRule) :
    (r ∈ get_matching_rules rules event ↔
      (r ∈ rules ∧ r.enabled = true ∧
        fullmatchCI r.camera_pattern event.after.camera = true ∧
        fullmatchCI r.object_type_pattern event.after.label = true ∧
        (∀ zs, r.zones = some zs → zs ≠ [] →
          ∃ z, z ∈ event.after.current_zones ∧ z ∈ zs))) ∧
    List.Sublist (get_matching_rules rules event) rules := by
  constructor
  · rw [get_matching_rules, List.mem_filter, rule_matches_iff]
  · exact List.filter_sublist rules

/-- C5 counterexample: a pass over one discovered, online camera with no
exceptions emits the enable command. `check_connectivity` is a function
of the pass's inputs alone — the handler stores no last-known flags —
so an immediately repeated pass with identical inputs (a pass in which
no device's computed flag differs from its previous value) emits exactly
the same non-empty command list, where the claim requires no command at
all for unchanged devices. -/
theorem C5_counterexample_unconditional_emit :
    check_connectivity [("cam1", "10.0.0.8")] [] (fun _ => true) =
      [("cam1", true)] ∧
    check_connectivity [("cam1", "10.0.0.8")] [] (fun _ => true) ≠
      ([] : List (String × Bool)) := by
  refine ⟨rfl, ?_⟩
  rw [show check_connectivity [("cam1", "10.0.0.8")] [] (fun _ => true) =
    [("cam1", true)] from rfl]
  simp

/-- C5 (amended): the reconciliation pass emits an enable/disable
command for every device it processes, unconditionally — every
discovered non-exception device gets its probe result emitted on every
pass, whether or not any previous pass computed the same flag (the
handler keeps no previous-flag state at all). -/
theorem C5_always_emits (cameras exceptions : List (String × String))
    (probe : String → Bool) (n ip : String)
    (hne : cameras ≠ []) (hmem : (n, ip) ∈ cameras)
    (hexc : exceptions.find? (fun e => e.1 == n) = none) :
    (n, probe ip) ∈ check_connectivity cameras exceptions probe := by
  have h1 : (n, ip) ∈ cameras.filter
      (fun c => (exceptions.find? (fun e => e.1 == c.1)).isNone) :=
    List.mem_filter.mpr ⟨hmem, by simp [hexc]⟩
  unfold check_connectivity check_connectivity_full
  rw [if_neg (by simpa [List.isEmpty_iff] using hne)]
  exact List.mem_append_right _ (List.mem_map.mpr ⟨(n, ip), h1, rfl⟩)

/-- C5 witness: the amended theorem at a concrete pass. -/
theorem C5_always_emits_witness :
    ("cam1", true) ∈ check_connectivity [("cam1", "10.0.0.8")]
      [("other", "enabled")] (fun _ => true) := by
  exact C5_always_emits [("cam1", "10.0.0.8")] [("other", "enabled")]
    (fun _ => true) "cam1" "10.0.0.8" (by simp) (by simp) rfl

/-- C6 counterexample: a pass in which discovery returns no cameras
aborts before the exceptions are applied, so the device named in the
exceptions map gets no enable command (and nothing is probed) — the
claim's "for every device named in the exceptions map, the pass sets
its flag to the literal value" fails on this pass. -/
theorem C6_counterexample_empty_discovery :
    check_connectivity [] [("cam1", "enabled")] (fun _ => false) =
      ([] : List (String × Bool)) ∧
    (check_connectivity_full [] [("cam1", "enabled")] (fun _ => false)).2 =
      ([] : List String) :=
  ⟨rfl, rfl⟩

/-- A successful `exception_cmd` keeps the device name. -/
theorem exception_cmd_fst {p : String × String} {q : String × Bool}
    (h : exception_cmd p = some q) : q.1 = p.1 := by
  unfold exception_cmd at h
  split at h
  · cases h; rfl
  · split at h
    · cases h; rfl
    · cases h

/-- An exception entry's command is emitted, its opposite is not, and
the device is never probed (given at least one discovered camera and
distinct exception keys). -/
theorem exception_cmd_emitted (cameras exceptions : List (String × String))
    (probe : String → Bool) (n s : String) (b : Bool)
    (hne : cameras ≠ []) (hmem : (n, s) ∈ exceptions)
    (hnodup : (exceptions.map Prod.fst).Nodup)
    (hcmd : exception_cmd (n, s) = some (n, b)) :
    (n, b) ∈ check_connectivity cameras exceptions probe ∧
    (n, !b) ∉ check_connectivity cameras exceptions probe ∧
    n ∉ (check_connectivity_full cameras exceptions probe).2 := by
  have hemp : ¬(cameras.isEmpty = true) := by
    simpa [List.isEmpty_iff] using hne
  have hfind : exceptions.find? (fun e => e.1 == n) ≠ none := by
    intro h
    have := List.find?_eq_none.mp h (n, s) hmem
    simp at this
  refine ⟨?_, ?_, ?_⟩
  · unfold check_connectivity check_connectivity_full
    rw [if_neg hemp]
    exact List.mem_append_left _
      (List.mem_filterMap.mpr ⟨(n, s), hmem, hcmd⟩)
  · unfold check_connectivity check_connectivity_full
    rw [if_neg hemp]
    intro hin
    rcases List.mem_append.mp hin with hin | hin
    · rcases List.mem_filterMap.mp hin with ⟨⟨a, t⟩, hat, hcmd'⟩
      have ha : a = n := by simpa using (exception_cmd_fst hcmd').symm
      subst ha
      have hts : ((a, t) : String × String) = (a, s) :=
        List.inj_on_of_nodup_map hnodup hat hmem rfl
      rw [hts, hcmd] at hcmd'
      cases b <;> simp_all
    · rcases List.mem_map.mp hin with ⟨⟨a, ip⟩, haf, heq⟩
      have ha : a = n := by
        simpa using congrArg Prod.fst heq
      subst ha
      rcases List.mem_filter.mp haf with ⟨_, hp⟩
      exact hfind (Option.isNone_iff_eq_none.mp (by simpa using hp))
  · unfold check_connectivity_full
    rw [if_neg hemp]
    intro hin
    rcases List.mem_map.mp hin with ⟨⟨a, ip⟩, haf, heq⟩
    have ha : a = n := by simpa using heq
    subst ha
    rcases List.mem_filter.mp haf with ⟨_, hp⟩
    exact hfind (Option.isNone_iff_eq_none.mp (by simpa using hp))

/-- Which devices a pass probes: exactly the discovered ones whose name
is not an exceptions key (when discovery is non-empty). -/
theorem check_connectivity_probed (cameras exceptions : List (String × String))
    (probe : String → Bool) (hne : cameras ≠ []) (m : String) :
    m ∈ (check_connectivity_full cameras exceptions probe).2 ↔
      ∃ ip, (m, ip) ∈ cameras ∧
        exceptions.find? (fun e => e.1 == m) = none := by
  have hemp : ¬(cameras.isEmpty = true) := by
    simpa [List.isEmpty_iff] using hne
  unfold check_connectivity_full
  rw [if_neg hemp]
  constructor
  · intro hin
    rcases List.mem_map.mp hin with ⟨⟨a, ip⟩, haf, heq⟩
    have ha : a = m := by simpa using heq
    subst ha
    rcases List.mem_filter.mp haf with ⟨hc, hp⟩
    exact ⟨ip, hc, Option.isNone_iff_eq_none.mp (by simpa using hp)⟩
  · rintro ⟨ip, hc, hf⟩
    exact List.mem_map.mpr ⟨(m, ip), List.mem_filter.mpr ⟨hc, by simp [hf]⟩, rfl⟩

/-- C6 (amended): provided discovery returns at least one device (an
empty discovery aborts the pass before exceptions are applied), every
device named in the exceptions map gets its flag set to the exception's
literal value — 'enabled' emits enable, 'disabled' emits disable, case
insensitively, for every probe function alike, so the probe result is
never consulted for it — and a device is probed exactly when it is
discovered and not named in the exceptions map. In particular, with
exceptions mapping cam1 to "enabled" and a probe returning false, the
emitted flag for cam1 is still true. -/
theorem C6_exceptions_override (cameras exceptions : List (String × String))
    (probe : String → Bool) (n s : String)
    (hne : cameras ≠ []) (hmem : (n, s) ∈ exceptions)
    (hnodup : (exceptions.map Prod.fst).Nodup) :
    (strLower s = "enabled" →
      ((n, true) ∈ check_connectivity cameras exceptions probe ∧
        (n, false) ∉ check_connectivity cameras exceptions probe ∧
        n ∉ (check_connectivity_full cameras exceptions probe).2)) ∧
    (strLower s = "disabled" →
      ((n, false) ∈ check_connectivity cameras exceptions probe ∧
        (n, true) ∉ check_connectivity cameras exceptions probe ∧
        n ∉ (check_connectivity_full cameras exceptions probe).2)) ∧
    (∀ m, m ∈ (check_connectivity_full cameras exceptions probe).2 ↔
      ∃ ip, (m, ip) ∈ cameras ∧
        exceptions.find? (fun e => e.1 == m) = none) := by
  refine ⟨fun hs => ?_, fun hs => ?_,
    fun m => check_connectivity_probed cameras exceptions probe hne m⟩
  · have := exception_cmd_emitted cameras exceptions probe n s true hne hmem
      hnodup (by simp [exception_cmd, hs])
    simpa using this
  · have := exception_cmd_emitted cameras exceptions probe n s false hne hmem
      hnodup (by simp [exception_cmd, hs])
    simpa using this

/-- C6 witness: the spec's scenario — one discovered camera, an
'enabled' exception for it, a probe that reports it offline; the
enable command is still emitted, no disable command appears, and the
camera is not probed. -/
theorem C6_exceptions_override_witness :
    ("cam1", true) ∈ check_connectivity [("cam1", "10.1.1.1")]
      [("cam1", "enabled")] (fun _ => false) ∧
    ("cam1", false) ∉ check_connectivity [("cam1", "10.1.1.1")]
      [("cam1", "enabled")] (fun _ => false) ∧
    "cam1" ∉ (check_connectivity_full [("cam1", "10.1.1.1")]
      [("cam1", "enabled")] (fun _ => false)).2 := by
  exact (C6_exceptions_override [("cam1", "10.1.1.1")] [("cam1", "enabled")]
    (fun _ => false) "cam1" "enabled" (by simp) (by simp) (by simp)).1 rfl

/-- C9 counterexample: the empty JSON object is valid structured data,
yet `FrigateEvent.from_dict` raises (`KeyError` from `data['after']`),
so "a parse error is raised only when the payload is not valid
structured data at all" fails. -/
theorem C9_counterexample_missing_after :
    parsedEventFromDict (Json.obj []) = Except.error PyErr.keyError := rfl

/-- C9 (amended): building the event data never throws on a missing
optional field — absent scores default to 0, absent zone lists to empty,
and an absent or unrecognized event type to UPDATE — but a parse error
is raised not only for invalid JSON: it is also raised when the payload
lacks the required 'after' object (or has a non-object or non-string
where the structure requires one); in every such case the consumer
handler drops and logs the event instead of crashing. -/
theorem C9_parse_defaults :
    (∀ fields : List (String × Json), ∃ ed,
      FrigateEventData.from_dict (Json.obj fields) = Except.ok ed ∧
      (jget fields "score" = none → ed.score = Json.num 0) ∧
      (jget fields "top_score" = none → ed.top_score = Json.num 0) ∧
      (jget fields "current_zones" = none → ed.current_zones = Json.arr []) ∧
      (jget fields "entered_zones" = none → ed.entered_zones = Json.arr [])) ∧
    (∀ s : String, s ≠ "new" → s ≠ "update" → s ≠ "end" →
      parse_event_type s = FrigateEventType.update) ∧
    (∀ (fields : List (String × Json)) (ev : ParsedEvent),
      jget fields "type" = none →
      parsedEventFromDict (Json.obj fields) = Except.ok ev →
      ev.event_type = FrigateEventType.update) ∧
    handle_event_message none = none ∧
    (∀ (j : Json) (e : PyErr), parsedEventFromDict j = Except.error e →
      handle_event_message (some j) = none) := by
  refine ⟨?_, ?_, ?_, rfl, ?_⟩
  · intro fields
    refine ⟨_, rfl, ?_, ?_, ?_, ?_⟩ <;> intro h <;> simp [jgetD, h]
  · intro s h1 h2 h3
    simp [parse_event_type, h1, h2, h3]
  · intro fields ev htype hok
    have hty : jgetD fields "type" (Json.str "update") = Json.str "update" := by
      simp [jgetD, htype]
    simp only [parsedEventFromDict] at hok
    rw [hty] at hok
    split at hok
    · cases hok
    · split at hok
      · cases hok
      · split at hok
        · cases hok
        · cases hok
          rfl
  · intro j e h
    simp [handle_event_message, h]

end HubitatSpec
